import Mathlib

/-- `dict.get k`: first (unique) binding of `k` in the association list. -/
def buscarClave {κ α : Type} [DecidableEq κ] : List (κ × α) → κ → Option α
  | [], _ => none
  | (k', v) :: rest, k => if k' = k then some v else buscarClave rest k

/-- In-place mutation of the value stored under `k` (no-op when absent). -/
def actualizarClave {κ α : Type} [DecidableEq κ] :
    List (κ × α) → κ → (α → α) → List (κ × α)
  | [], _, _ => []
  | (k', v) :: rest, k, f =>
      if k' = k then (k', f v) :: actualizarClave rest k f
      else (k', v) :: actualizarClave rest k f

/-- `dict[k] = v`: overwrite the binding in place if present, else append. -/
def ponerClave {κ α : Type} [DecidableEq κ] (l : List (κ × α)) (k : κ) (v : α) :
    List (κ × α) :=
  match buscarClave l k with
  | some _ => actualizarClave l k (fun _ => v)
  | none => l ++ [(k, v)]

/-- `dict.setdefault k d`: insert `d` at the end when `k` is absent. -/
def claveDefecto {κ α : Type} [DecidableEq κ] (l : List (κ × α)) (k : κ) (d : α) :
    List (κ × α) :=
  match buscarClave l k with
  | some _ => l
  | none => l ++ [(k, d)]

/-- Python exceptions raised by the store code. -/
inductive PyError : Type
  | valueError (msg : String)
  | runtimeError (msg : String)
deriving DecidableEq, Repr

/-- A row of the store's `productos` table (`ProductoRepositorioImpl.guardar`
fields: idProducto, nombre, descripcion, precio, stock). -/
structure ProductRow where
  idProducto : Nat
  nombre : String
  descripcion : String
  precio : Int
  stock : Int
deriving DecidableEq, Repr

/-- A row of the store's `clientes` table. -/
structure ClienteRow where
  idCliente : Nat
  nombre : String
  direccion : String
  telefono : String
deriving DecidableEq, Repr

/-- `Carrito`: line items `(idProducto, cantidad)` plus the cached total. -/
structure Carrito where
  idCarrito : Nat
  productos : List (Nat × Nat)
  total : Int
deriving DecidableEq, Repr

/-- The `Cliente` snapshot stored inside a `Factura`. -/
structure Cliente where
  idCliente : Nat
  nombre : String
  direccion : String
  telefono : String
deriving DecidableEq, Repr

/-- `Factura` (invoice); the `fecha` timestamp is outside the model. -/
structure Factura where
  idFactura : Nat
  cliente : Cliente
  productos : List (Nat × Nat)
  total : Int
deriving DecidableEq, Repr

instance : Inhabited Factura := ⟨⟨0, ⟨0, "", "", ""⟩, [], 0⟩⟩

/-- An event published on the `BusEventos` by the services: the event name
together with the payload `{"idProducto": ..., "evento": ...}`. -/
structure Evento where
  nombre : String
  idProducto : Nat
  evento : String
deriving DecidableEq, Repr

/-- A `Logger` line (`info` or `error`). -/
inductive LogEntry : Type
  | info (msg : String)
  | error (msg : String)
deriving DecidableEq, Repr

/-- `ConexionBaseDatos`: the Singleton in-memory store.  In a fresh process
`seq_factura = 1` and every table is empty. -/
structure ConexionBaseDatos where
  productos : List (Nat × ProductRow)
  clientes : List (Nat × ClienteRow)
  carritos : List (Nat × Carrito)
  facturas : List (Nat × Factura)
  seq_factura : Nat
deriving DecidableEq, Repr

/-- `Contabilidad`: running income / expense totals. -/
structure Contabilidad where
  ingresos : Int
  egresos : Int
deriving DecidableEq, Repr

/-- `ProductoRepositorioImpl.obtenerPorId`: raises
`ValueError("Producto no encontrado")` when the id is absent. -/
def obtenerPorId (db : ConexionBaseDatos) (idProducto : Nat) :
    Except PyError ProductRow :=
  match buscarClave db.productos idProducto with
  | none => .error (.valueError "Producto no encontrado")
  | some row => .ok row

/-- `ProductoRepositorioImpl.guardar`: upsert keyed by `idProducto`. -/
def guardar (db : ConexionBaseDatos) (row : ProductRow) : ConexionBaseDatos :=
  { db with productos := ponerClave db.productos row.idProducto row }

/-- `ProductoRepositorioImpl.actualizarInventario`: raises
`ValueError("Producto no existe")` when absent, else
`productos[id]["stock"] += delta` (no clamping at zero). -/
def actualizarInventario (db : ConexionBaseDatos) (idProducto : Nat)
    (delta : Int) : ConexionBaseDatos × Option PyError :=
  match buscarClave db.productos idProducto with
  | none => (db, some (.valueError "Producto no existe"))
  | some _ =>
      let bajarStock : ProductRow → ProductRow :=
        fun r => { r with stock := r.stock + delta }
      ({ db with productos := actualizarClave db.productos idProducto bajarStock }, none)

/-- `InventarioServiceImpl.consultarInventario`: current stock via the
repository. -/
def consultarInventario (db : ConexionBaseDatos) (idProducto : Nat) :
    Except PyError Int :=
  match obtenerPorId db idProducto with
  | .error e => .error e
  | .ok p => .ok p.stock

/-- `InventarioServiceImpl.darSalidaProducto`: decrement stock by
`cantidad`, publish one `venta_realizada` event per unit, then re-read the
stock and publish `producto_actualizado` / "Producto agotado" when it is
`≤ 0`.  Returns the store, the list of published events, and the error
channel. -/
def darSalidaProducto (db : ConexionBaseDatos) (idProducto : Nat)
    (cantidad : Nat) : ConexionBaseDatos × List Evento × Option PyError :=
  match actualizarInventario db idProducto (-(cantidad : Int)) with
  | (db', some e) => (db', [], some e)
  | (db', none) =>
      let ventas : List Evento :=
        List.replicate cantidad ⟨"venta_realizada", idProducto, "Venta realizada"⟩
      match consultarInventario db' idProducto with
      | .error e => (db', ventas, some e)
      | .ok stock =>
          if stock ≤ 0 then
            (db', ventas ++ [⟨"producto_actualizado", idProducto, "Producto agotado"⟩], none)
          else
            (db', ventas, none)

/-- `InventarioServiceImpl.ingresarProducto`: persist via the repository,
then publish a `producto_actualizado` event. -/
def ingresarProducto (db : ConexionBaseDatos) (row : ProductRow) :
    ConexionBaseDatos × List Evento :=
  (guardar db row,
   [⟨"producto_actualizado", row.idProducto, "Ingreso a inventario"⟩])

/-- The stub payment gateway result (`PasarelaPago.procesarPago` always
approves). -/
structure ResultadoPago where
  ok : Bool
deriving DecidableEq, Repr

/-- `PasarelaPago.procesarPago`: simulation, always approved. -/
def procesarPago (_monto : Int) : ResultadoPago := ⟨true⟩

/-- `Carrito.calcularTotal`: sum of `precio * cantidad` over the line
items, reading current prices (`db.productos.get(idP, {}).get("precio", 0)`). -/
def calcularTotal (productos : List (Nat × ProductRow))
    (items : List (Nat × Nat)) : Int :=
  match items with
  | [] => 0
  | (idP, cant) :: rest =>
      (match buscarClave productos idP with
       | some p => p.precio
       | none => 0) * (cant : Int) + calcularTotal productos rest

/-- Step 3 of `OrdenServiceImpl.verificar`: the loop
`for idP, cant in carrito.productos: self.inventario.darSalidaProducto(idP, cant)`.
On an error the loop stops, keeping the mutations and events already made. -/
def darSalidaLista (db : ConexionBaseDatos) (items : List (Nat × Nat)) :
    ConexionBaseDatos × List Evento × Option PyError :=
  match items with
  | [] => (db, [], none)
  | (idP, cant) :: rest =>
      match darSalidaProducto db idP cant with
      | (db1, evs, some e) => (db1, evs, some e)
      | (db1, evs, none) =>
          match darSalidaLista db1 rest with
          | (db2, evs2, err) => (db2, evs ++ evs2, err)

/-- `OrdenServiceImpl.verificar`: the checkout sequence.  Returns the
store, the accounting state, the events published during the call, and the
created `Factura` (or the raised error, with all mutations made before the
raise kept). -/
def verificar (db : ConexionBaseDatos) (conta : Contabilidad)
    (idCliente idCarrito : Nat) :
    ConexionBaseDatos × Contabilidad × List Evento × Except PyError Factura :=
  -- 1. Calcular total
  match buscarClave db.carritos idCarrito with
  | none => (db, conta, [], .error (.valueError "Carrito vacío o inexistente"))
  | some carrito =>
      match carrito.productos with
      | [] => (db, conta, [], .error (.valueError "Carrito vacío o inexistente"))
      | _ :: _ =>
          let total := calcularTotal db.productos carrito.productos
          let ponerTotal : Carrito → Carrito := fun c => { c with total := total }
          let db1 : ConexionBaseDatos :=
            { db with carritos := actualizarClave db.carritos idCarrito ponerTotal }
          -- 2. Procesar pago (stub gateway, always approves)
          let resultado := procesarPago total
          if resultado.ok = false then
            (db1, conta, [], .error (.runtimeError "Pago rechazado"))
          else
            -- 3. Descontar inventario
            match darSalidaLista db1 carrito.productos with
            | (db2, evs, some e) => (db2, conta, evs, .error e)
            | (db2, evs, none) =>
                -- 4. Crear factura
                let idFactura := db2.seq_factura
                let db3 : ConexionBaseDatos := { db2 with seq_factura := idFactura + 1 }
                let clienteRow : ClienteRow :=
                  (buscarClave db3.clientes idCliente).getD
                    ⟨idCliente, "Cliente " ++ toString idCliente, "-", "-"⟩
                let cliente : Cliente :=
                  ⟨clienteRow.idCliente, clienteRow.nombre, clienteRow.direccion,
                   clienteRow.telefono⟩
                let factura : Factura := ⟨idFactura, cliente, carrito.productos, total⟩
                let db4 : ConexionBaseDatos :=
                  { db3 with facturas := ponerClave db3.facturas idFactura factura }
                -- 5. Registrar ingreso
                let conta2 : Contabilidad :=
                  { conta with ingresos := conta.ingresos + factura.total }
                -- 6. Notificar evento de orden completada
                let evs2 := evs ++
                  [⟨"orden_completada", 0, "Orden #" ++ toString idFactura ++ " completada"⟩]
                -- 7. Vaciar carrito
                let vaciar : Carrito → Carrito := fun c => { c with productos := [], total := 0 }
                let db5 : ConexionBaseDatos :=
                  { db4 with carritos := actualizarClave db4.carritos idCarrito vaciar }
                (db5, conta2, evs2, .ok factura)

/-- `FachadaTienda.agregarAlCarrito`: ensure the client record and cart
exist (`setdefault`), validate the product and its stock, append the line
item and recompute the cached total.  On a missing product or insufficient
stock the source logs the error and `return`s: nothing is raised, so the
error channel is always `none`. -/
def agregarAlCarrito (db : ConexionBaseDatos) (idCliente idProducto : Nat)
    (cantidad : Nat) : ConexionBaseDatos × List LogEntry × Option PyError :=
  let clienteNuevo : ClienteRow :=
    ⟨idCliente, "Cliente " ++ toString idCliente, "-", "-"⟩
  let db0 : ConexionBaseDatos :=
    { db with clientes := claveDefecto db.clientes idCliente clienteNuevo }
  let db1 : ConexionBaseDatos :=
    { db0 with carritos := claveDefecto db0.carritos idCliente ⟨idCliente, [], 0⟩ }
  match buscarClave db1.productos idProducto with
  | none => (db1, [.error "Producto no encontrado"], none)
  | some prod =>
      if prod.stock < (cantidad : Int) then
        (db1, [.error "Stock insuficiente"], none)
      else
        let anexar : Carrito → Carrito :=
          fun c => { c with productos := c.productos ++ [(idProducto, cantidad)] }
        let db2 : ConexionBaseDatos :=
          { db1 with carritos := actualizarClave db1.carritos idCliente anexar }
        let recalcular : Carrito → Carrito :=
          fun c => { c with total := calcularTotal db2.productos c.productos }
        let db3 : ConexionBaseDatos :=
          { db2 with carritos := actualizarClave db2.carritos idCliente recalcular }
        (db3, [.info ("Agregado al carrito " ++ toString idCliente)], none)

/-- `BusEventos`: subscriber lists keyed by event name.  A handler takes
the payload (type `π`, the `Dict[str, Any]` of the source) and acts on a
state of type `σ` (the handler's own effects, modelled by state passing). -/
structure BusEventos (π σ : Type) where
  suscriptores : List (String × List (π → σ → σ))

/-- `BusEventos.suscribir`:
`self.suscriptores.setdefault(nombreEvento, []).append(handler)`. -/
def suscribir {π σ : Type} (bus : BusEventos π σ) (nombreEvento : String)
    (handler : π → σ → σ) : BusEventos π σ :=
  match buscarClave bus.suscriptores nombreEvento with
  | some _ =>
      ⟨actualizarClave bus.suscriptores nombreEvento (fun hs => hs ++ [handler])⟩
  | none => ⟨bus.suscriptores ++ [(nombreEvento, [handler])]⟩

/-- `BusEventos.publicar`: call every handler registered for the name, in
list order, passing the payload; `suscriptores.get(nombreEvento, [])`. -/
def publicar {π σ : Type} (bus : BusEventos π σ) (nombreEvento : String)
    (datos : π) (s : σ) : σ :=
  ((buscarClave bus.suscriptores nombreEvento).getD []).foldl
    (fun st handler => handler datos st) s

/-- An operation of the demo driver against the store: product ingestion,
facade add-to-cart, or facade checkout (`finalizarCompra`, which just
delegates to `OrdenServiceImpl.verificar`). -/
inductive Op : Type
  | ingresar (row : ProductRow)
  | agregar (idCliente idProducto cantidad : Nat)
  | comprar (idCliente idCarrito : Nat)

/-- Run a sequence of operations, collecting the invoice ids returned by
the successful checkouts, in order. -/
def runOps : List Op → ConexionBaseDatos → Contabilidad →
    ConexionBaseDatos × Contabilidad × List Nat
  | [], db, conta => (db, conta, [])
  | .ingresar row :: rest, db, conta => runOps rest (ingresarProducto db row).1 conta
  | .agregar c p q :: rest, db, conta => runOps rest (agregarAlCarrito db c p q).1 conta
  | .comprar c k :: rest, db, conta =>
      match verificar db conta c k with
      | (db', conta', _, .ok f) =>
          match runOps rest db' conta' with
          | (db2, conta2, ids) => (db2, conta2, f.idFactura :: ids)
      | (db', conta', _, .error _) => runOps rest db' conta'

/-- Total quantity requested for product `p` across a list of line items. -/
def cantidadTotal (items : List (Nat × Nat)) (p : Nat) : Nat :=
  match items with
  | [] => 0
  | (q, c) :: rest => (if q = p then c else 0) + cantidadTotal rest p

/-- The stock decrement `darSalidaProducto` applies to the product row
(`actualizarInventario` with `delta = -cantidad`). -/
def restarStock (cantidad : Nat) : ProductRow → ProductRow :=
  fun r => { r with stock := r.stock + -(cantidad : Int) }

/-- The `venta_realizada` events published for one dispatch (one per unit). -/
def eventosVenta (idProducto : Nat) (cantidad : Nat) : List Evento :=
  List.replicate cantidad ⟨"venta_realizada", idProducto, "Venta realizada"⟩

/-- The `producto_actualizado` event published when the stock is exhausted. -/
def eventoAgotado (idProducto : Nat) : Evento :=
  ⟨"producto_actualizado", idProducto, "Producto agotado"⟩

/-- Checkout step 1 as a state transformer: `carrito.calcularTotal()`
writes the recomputed total into the cart stored under `idCarrito`. -/
def conTotalCarrito (db : ConexionBaseDatos) (idCarrito : Nat)
    (items : List (Nat × Nat)) : ConexionBaseDatos :=
  let f : Carrito → Carrito :=
    fun c => { c with total := calcularTotal db.productos items }
  { db with carritos := actualizarClave db.carritos idCarrito f }

/-- The client snapshot checkout step 4 builds for the invoice:
`clientes.get(idCliente, placeholder)`. -/
def clienteSnapshot (clientes : List (Nat × ClienteRow)) (idCliente : Nat) :
    Cliente :=
  let fila := (buscarClave clientes idCliente).getD
    ⟨idCliente, "Cliente " ++ toString idCliente, "-", "-"⟩
  ⟨fila.idCliente, fila.nombre, fila.direccion, fila.telefono⟩

/-- Checkout steps 4-8 (after a successful inventory dispatch): allocate
the invoice id, store the invoice, record the income, publish the
`orden_completada` event and empty the cart. -/
def exitoCompra (db2 : ConexionBaseDatos) (conta : Contabilidad)
    (idCliente idCarrito : Nat) (items : List (Nat × Nat)) (total : Int)
    (evs : List Evento) :
    ConexionBaseDatos × Contabilidad × List Evento × Except PyError Factura :=
  let factura : Factura :=
    ⟨db2.seq_factura, clienteSnapshot db2.clientes idCliente, items, total⟩
  let vaciar : Carrito → Carrito := fun c => { c with productos := [], total := 0 }
  let db3 : ConexionBaseDatos := { db2 with seq_factura := db2.seq_factura + 1 }
  let db4 : ConexionBaseDatos :=
    { db3 with facturas := ponerClave db3.facturas db2.seq_factura factura }
  let db5 : ConexionBaseDatos :=
    { db4 with carritos := actualizarClave db4.carritos idCarrito vaciar }
  (db5, { conta with ingresos := conta.ingresos + factura.total },
   evs ++ [⟨"orden_completada", 0, "Orden #" ++ toString db2.seq_factura ++ " completada"⟩],
   .ok factura)

/-- Utility: whether a checkout result is a success. -/
def esOk {ε α : Type} : Except ε α → Bool
  | .ok _ => true
  | .error _ => false

/-- Concrete store for the C4 witness: one product with stock 3. -/
def dbC4 : ConexionBaseDatos := ⟨[(5, ⟨5, "p", "d", 10, 3⟩)], [], [], [], 1⟩

/-- Concrete store for the C8 witness. -/
def dbC8 : ConexionBaseDatos := ⟨[(9, ⟨9, "q", "d", 7, 4⟩)], [], [], [], 1⟩

/-- Concrete store for the C10 witness: a cart for an unregistered client. -/
def dbC10 : ConexionBaseDatos :=
  ⟨[(7, ⟨7, "r", "d", 11, 5⟩)], [], [(2, ⟨2, [(7, 1)], 0⟩)], [], 1⟩

/-- Concrete store for the C5/C9 witnesses: item A (price 120000, qty 2)
and item B (price 95000, qty 1) in cart 1. -/
def dbC5 : ConexionBaseDatos :=
  ⟨[(101, ⟨101, "A", "d", 120000, 10⟩), (102, ⟨102, "B", "d", 95000, 5⟩)], [],
   [(1, ⟨1, [(101, 2), (102, 1)], 0⟩)], [], 1⟩

/-- The checkout result on that store. -/
def resC5 : ConexionBaseDatos × Contabilidad × List Evento × Except PyError Factura :=
  verificar dbC5 ⟨0, 0⟩ 1 1

/-- The invoice that checkout returns. -/
def facC5 : Factura :=
  match resC5.2.2.2 with
  | .ok f => f
  | .error _ => default

/-- Store for the C1 counterexample: product 103 has stock 2. -/
def dbC1a : ConexionBaseDatos :=
  ⟨[(103, ⟨103, "Zapatilla Urbana", "Street", 130000, 2⟩)], [], [], [], 1⟩

/-- After client 1 adds 2 units through the facade (validated against
stock 2). -/
def dbC1b : ConexionBaseDatos := (agregarAlCarrito dbC1a 1 103 2).1

/-- After the same client adds 2 more units: the stock check still sees
the unreserved stock of 2, so the second add is also accepted. -/
def dbC1c : ConexionBaseDatos := (agregarAlCarrito dbC1b 1 103 2).1

/-- Store for the C1 amended witness: stock 3, cart asks for 2. -/
def dbC1w : ConexionBaseDatos :=
  ⟨[(103, ⟨103, "Zapatilla Urbana", "Street", 130000, 3⟩)], [],
   [(1, ⟨1, [(103, 2)], 0⟩)], [], 1⟩

/-- The checkout result on that store. -/
def resC1w : ConexionBaseDatos × Contabilidad × List Evento × Except PyError Factura :=
  verificar dbC1w ⟨0, 0⟩ 1 1

/-- The invoice that checkout returns on that store. -/
def facC1w : Factura :=
  match resC1w.2.2.2 with
  | .ok f => f
  | .error _ => default

/-- Store for the C6 counterexample: no products exist. -/
def dbC6 : ConexionBaseDatos := ⟨[], [], [], [], 1⟩

/-- Instrumentation handler: records its tag and the payload it received
at the end of a log state. -/
def registroHandler {π : Type} (t : Nat) : π → List (Nat × π) → List (Nat × π) :=
  fun d log => log ++ [(t, d)]

/-- Operation sequence for the C3 witness: ingest a product, then two
add-and-checkout rounds. -/
def opsC3 : List Op :=
  [.ingresar ⟨7, "a", "d", 10, 5⟩, .agregar 1 7 2, .comprar 1 1,
   .agregar 1 7 1, .comprar 1 1]

/-! ### Lemmas and claim theorems -/

theorem buscarClave_actualizarClave {κ α : Type} [DecidableEq κ]
    (l : List (κ × α)) (k j : κ) (f : α → α) :
    buscarClave (actualizarClave l k f) j =
      if j = k then (buscarClave l j).map f else buscarClave l j := by
  induction l with
  | nil => by_cases h : j = k <;> simp [buscarClave, actualizarClave, h]
  | cons hd tl ih =>
      obtain ⟨a, v⟩ := hd
      simp only [actualizarClave]
      by_cases hak : a = k
      · subst hak
        by_cases haj : a = j
        · subst haj; simp [buscarClave]
        · simp [buscarClave, haj, ih]
      · by_cases haj : a = j
        · subst haj; simp [buscarClave, hak, Ne.symm hak]
        · simp [buscarClave, hak, haj, ih]

theorem buscarClave_append {κ α : Type} [DecidableEq κ]
    (l l₂ : List (κ × α)) (j : κ) :
    buscarClave (l ++ l₂) j =
      match buscarClave l j with
      | some v => some v
      | none => buscarClave l₂ j := by
  induction l with
  | nil => simp [buscarClave]
  | cons hd tl ih =>
      obtain ⟨a, v⟩ := hd
      by_cases haj : a = j <;> simp [buscarClave, haj, ih]

theorem buscarClave_ponerClave {κ α : Type} [DecidableEq κ]
    (l : List (κ × α)) (k j : κ) (v : α) :
    buscarClave (ponerClave l k v) j =
      if j = k then some v else buscarClave l j := by
  unfold ponerClave
  cases hk : buscarClave l k with
  | some w =>
      rw [buscarClave_actualizarClave]
      by_cases hjk : j = k <;> simp [hjk, hk]
  | none =>
      rw [buscarClave_append]
      by_cases hjk : j = k
      · subst hjk; simp [buscarClave, hk]
      · have hkj : ¬k = j := fun h => hjk h.symm
        cases hj : buscarClave l j <;> simp [buscarClave, hjk, hkj]

theorem buscarClave_claveDefecto {κ α : Type} [DecidableEq κ]
    (l : List (κ × α)) (k j : κ) (d : α) :
    buscarClave (claveDefecto l k d) j =
      if j = k then some ((buscarClave l k).getD d) else buscarClave l j := by
  unfold claveDefecto
  cases hk : buscarClave l k with
  | some w => by_cases hjk : j = k <;> simp [hjk, hk]
  | none =>
      rw [buscarClave_append]
      by_cases hjk : j = k
      · subst hjk; simp [buscarClave, hk]
      · have hkj : ¬k = j := fun h => hjk h.symm
        cases hj : buscarClave l j <;> simp [buscarClave, hjk, hkj]

theorem actualizarClave_actualizarClave {κ α : Type} [DecidableEq κ]
    (l : List (κ × α)) (k : κ) (f g : α → α) :
    actualizarClave (actualizarClave l k f) k g =
      actualizarClave l k (fun x => g (f x)) := by
  induction l with
  | nil => simp [actualizarClave]
  | cons hd tl ih =>
      obtain ⟨a, v⟩ := hd
      by_cases hak : a = k <;> simp [actualizarClave, hak, ih]

theorem actualizarClave_congr_id {κ α : Type} [DecidableEq κ]
    (l : List (κ × α)) (k : κ) (f : α → α) (hf : ∀ x, f x = x) :
    actualizarClave l k f = l := by
  induction l with
  | nil => simp [actualizarClave]
  | cons hd tl ih =>
      obtain ⟨a, v⟩ := hd
      by_cases hak : a = k <;> simp [actualizarClave, hak, ih, hf]

theorem darSalidaProducto_eq (db : ConexionBaseDatos) (idP : Nat) (cant : Nat) :
    darSalidaProducto db idP cant =
      match buscarClave db.productos idP with
      | none => (db, [], some (PyError.valueError "Producto no existe"))
      | some row =>
          ({ db with productos := actualizarClave db.productos idP (restarStock cant) },
           eventosVenta idP cant ++
             (if row.stock + -(cant : Int) ≤ 0 then [eventoAgotado idP] else []),
           none) := by
  cases h : buscarClave db.productos idP with
  | none => simp [darSalidaProducto, actualizarInventario, h]
  | some row =>
      have hb : buscarClave (actualizarClave db.productos idP
            (fun r => { r with stock := r.stock + -(cant : Int) })) idP
          = some { row with stock := row.stock + -(cant : Int) } := by
        rw [buscarClave_actualizarClave]; simp [h]
      simp only [darSalidaProducto, actualizarInventario, h, consultarInventario,
        obtenerPorId, restarStock, eventosVenta, eventoAgotado]
      simp only [hb]
      by_cases hs : row.stock + -(cant : Int) ≤ 0 <;> simp [hs, restarStock] <;> rfl

theorem darSalidaLista_frame (items : List (Nat × Nat)) (db : ConexionBaseDatos) :
    (darSalidaLista db items).1.clientes = db.clientes ∧
    (darSalidaLista db items).1.carritos = db.carritos ∧
    (darSalidaLista db items).1.facturas = db.facturas ∧
    (darSalidaLista db items).1.seq_factura = db.seq_factura := by
  induction items generalizing db with
  | nil => simp [darSalidaLista]
  | cons hd tl ih =>
      obtain ⟨p, c⟩ := hd
      simp only [darSalidaLista, darSalidaProducto_eq]
      cases hp : buscarClave db.productos p with
      | none => simp
      | some row =>
          rcases hrec : darSalidaLista
              { db with productos := actualizarClave db.productos p (restarStock c) } tl
            with ⟨db2, evs2, err⟩
          simp only [hrec]
          have hih := ih
            { db with productos := actualizarClave db.productos p (restarStock c) }
          rw [hrec] at hih
          cases err <;> simpa using hih

theorem darSalidaLista_ok_productos (items : List (Nat × Nat))
    (db db' : ConexionBaseDatos) (evs : List Evento)
    (h : darSalidaLista db items = (db', evs, none)) (q : Nat) :
    buscarClave db'.productos q =
      (buscarClave db.productos q).map (restarStock (cantidadTotal items q)) := by
  induction items generalizing db evs with
  | nil =>
      simp only [darSalidaLista, Prod.mk.injEq] at h
      obtain ⟨rfl, -, -⟩ := h
      cases hq : buscarClave db.productos q <;> simp [cantidadTotal, restarStock]
  | cons hd tl ih =>
      obtain ⟨p, c⟩ := hd
      cases hp : buscarClave db.productos p with
      | none =>
          simp only [darSalidaLista, darSalidaProducto_eq, hp] at h
          simp at h
      | some row =>
          simp only [darSalidaLista, darSalidaProducto_eq, hp] at h
          rcases hrec : darSalidaLista
              { db with productos := actualizarClave db.productos p (restarStock c) } tl
            with ⟨db2, evs2, err⟩
          rw [hrec] at h
          simp only [Prod.mk.injEq] at h
          obtain ⟨h1, -, h3⟩ := h
          subst h1
          subst h3
          have hih := ih
            { db with productos := actualizarClave db.productos p (restarStock c) }
            evs2 hrec
          rw [hih]
          simp only [buscarClave_actualizarClave]
          by_cases hqp : q = p
          · subst hqp
            simp only [if_pos rfl, cantidadTotal, if_pos rfl]
            cases hq : buscarClave db.productos q <;> simp [restarStock]
            ring
          · have hpq : ¬p = q := fun hh => hqp hh.symm
            simp [if_neg hqp, cantidadTotal, hpq]

theorem darSalidaLista_err_none (items : List (Nat × Nat)) (db : ConexionBaseDatos)
    (h : ∀ p ∈ items, (buscarClave db.productos p.1).isSome = true) :
    (darSalidaLista db items).2.2 = none := by
  induction items generalizing db with
  | nil => simp [darSalidaLista]
  | cons hd tl ih =>
      obtain ⟨p, c⟩ := hd
      have hp := h (p, c) (by simp)
      cases hp' : buscarClave db.productos p with
      | none => rw [hp'] at hp; simp at hp
      | some row =>
          simp only [darSalidaLista, darSalidaProducto_eq, hp']
          rcases hrec : darSalidaLista
              { db with productos := actualizarClave db.productos p (restarStock c) } tl
            with ⟨db2, evs2, err⟩
          simp only [hrec]
          have hpres : ∀ x ∈ tl,
              (buscarClave (actualizarClave db.productos p (restarStock c)) x.1).isSome
                = true := by
            intro x hx
            rw [buscarClave_actualizarClave]
            by_cases hxp : x.1 = p
            · simp [hxp, hp']
            · simp only [if_neg hxp]
              exact h x (List.mem_cons_of_mem _ hx)
          have hih := ih
            { db with productos := actualizarClave db.productos p (restarStock c) }
            (by simpa using hpres)
          rw [hrec] at hih
          simpa using hih

theorem verificar_eq (db : ConexionBaseDatos) (conta : Contabilidad)
    (idCliente idCarrito : Nat) :
    verificar db conta idCliente idCarrito =
      match buscarClave db.carritos idCarrito with
      | none => (db, conta, [], .error (.valueError "Carrito vacío o inexistente"))
      | some c =>
          match c.productos with
          | [] => (db, conta, [], .error (.valueError "Carrito vacío o inexistente"))
          | _ :: _ =>
              match darSalidaLista (conTotalCarrito db idCarrito c.productos)
                  c.productos with
              | (db2, evs, some e) => (db2, conta, evs, .error e)
              | (db2, evs, none) =>
                  exitoCompra db2 conta idCliente idCarrito c.productos
                    (calcularTotal db.productos c.productos) evs := by
  rfl

theorem verificar_ok_spec (db : ConexionBaseDatos) (conta : Contabilidad)
    (idCliente idCarrito : Nat) (db' : ConexionBaseDatos) (conta' : Contabilidad)
    (evs : List Evento) (f : Factura)
    (hok : verificar db conta idCliente idCarrito = (db', conta', evs, .ok f)) :
    ∃ c, buscarClave db.carritos idCarrito = some c ∧
      c.productos ≠ [] ∧
      f.idFactura = db.seq_factura ∧
      f.productos = c.productos ∧
      f.total = calcularTotal db.productos c.productos ∧
      f.cliente = clienteSnapshot db.clientes idCliente ∧
      db'.seq_factura = db.seq_factura + 1 ∧
      db'.clientes = db.clientes ∧
      db'.facturas = ponerClave db.facturas db.seq_factura f ∧
      conta' = { conta with ingresos := conta.ingresos + f.total } ∧
      buscarClave db'.carritos idCarrito = some ⟨c.idCarrito, [], 0⟩ ∧
      (∀ q, buscarClave db'.productos q =
        (buscarClave db.productos q).map (restarStock (cantidadTotal c.productos q))) := by
  rw [verificar_eq] at hok
  cases hc : buscarClave db.carritos idCarrito with
  | none => simp [hc] at hok
  | some c =>
      cases hpr : c.productos with
      | nil => simp [hc, hpr] at hok
      | cons a rest =>
          simp only [hc, hpr] at hok
          rcases hds : darSalidaLista (conTotalCarrito db idCarrito (a :: rest))
              (a :: rest) with ⟨db2, evs0, err⟩
          rw [hds] at hok
          cases err with
          | some e => simp at hok
          | none =>
              have hfr := darSalidaLista_frame (a :: rest)
                (conTotalCarrito db idCarrito (a :: rest))
              rw [hds] at hfr
              simp only [conTotalCarrito] at hfr
              obtain ⟨hcl, hca, hfa, hsq⟩ := hfr
              have hpq : ∀ q, buscarClave db2.productos q =
                  (buscarClave db.productos q).map
                    (restarStock (cantidadTotal (a :: rest) q)) := by
                intro q
                have := darSalidaLista_ok_productos (a :: rest)
                  (conTotalCarrito db idCarrito (a :: rest)) db2 evs0 hds q
                simpa [conTotalCarrito] using this
              simp only [exitoCompra, Prod.mk.injEq, Except.ok.injEq] at hok
              obtain ⟨hdb, hconta, -, hf⟩ := hok
              refine ⟨c, rfl, by simp [hpr], ?_, ?_, ?_, ?_, ?_, ?_, ?_, ?_, ?_, ?_⟩
              · rw [← hf]; simpa using hsq
              · rw [← hf]; simp [hpr]
              · rw [← hf]; simp [hpr]
              · rw [← hf]; simp [hcl]
              · rw [← hdb]; simpa using hsq
              · rw [← hdb]; simpa using hcl
              · rw [← hdb, ← hf]; simp [hfa, hsq]
              · rw [← hconta, ← hf]
              · rw [← hdb]
                simp only [hca]
                rw [buscarClave_actualizarClave]
                simp only [if_pos rfl]
                rw [buscarClave_actualizarClave]
                simp [hc]
              · intro q
                rw [← hdb]
                simpa [hpr] using hpq q

theorem verificar_err_frame (db : ConexionBaseDatos) (conta : Contabilidad)
    (idCliente idCarrito : Nat) (db' : ConexionBaseDatos) (conta' : Contabilidad)
    (evs : List Evento) (e : PyError)
    (h : verificar db conta idCliente idCarrito = (db', conta', evs, .error e)) :
    db'.facturas = db.facturas ∧ db'.seq_factura = db.seq_factura ∧
      conta' = conta := by
  rw [verificar_eq] at h
  cases hc : buscarClave db.carritos idCarrito with
  | none =>
      simp only [hc, Prod.mk.injEq] at h
      obtain ⟨h1, h2, -, -⟩ := h
      subst h1
      exact ⟨rfl, rfl, h2.symm⟩
  | some c =>
      cases hpr : c.productos with
      | nil =>
          simp only [hc, hpr, Prod.mk.injEq] at h
          obtain ⟨h1, h2, -, -⟩ := h
          subst h1
          exact ⟨rfl, rfl, h2.symm⟩
      | cons a rest =>
          simp only [hc, hpr] at h
          rcases hds : darSalidaLista (conTotalCarrito db idCarrito (a :: rest))
              (a :: rest) with ⟨db2, evs0, err⟩
          rw [hds] at h
          cases err with
          | none => simp [exitoCompra] at h
          | some e2 =>
              have hfr := darSalidaLista_frame (a :: rest)
                (conTotalCarrito db idCarrito (a :: rest))
              rw [hds] at hfr
              simp only [conTotalCarrito] at hfr
              obtain ⟨-, -, hfa, hsq⟩ := hfr
              simp only [Prod.mk.injEq] at h
              obtain ⟨h1, h2, -, -⟩ := h
              subst h1
              exact ⟨hfa, hsq, h2.symm⟩

theorem verificar_ok_of (db : ConexionBaseDatos) (conta : Contabilidad)
    (idCliente idCarrito : Nat) (c : Carrito)
    (hc : buscarClave db.carritos idCarrito = some c) (hne : c.productos ≠ [])
    (hp : ∀ p ∈ c.productos, (buscarClave db.productos p.1).isSome = true) :
    ∃ db' conta' evs f,
      verificar db conta idCliente idCarrito = (db', conta', evs, .ok f) := by
  rw [verificar_eq]
  cases hpr : c.productos with
  | nil => exact absurd hpr hne
  | cons a rest =>
      simp only [hc, hpr]
      rcases hds : darSalidaLista (conTotalCarrito db idCarrito (a :: rest))
          (a :: rest) with ⟨db2, evs0, err⟩
      have herr : err = none := by
        have hpres : ∀ x ∈ (a :: rest),
            (buscarClave (conTotalCarrito db idCarrito (a :: rest)).productos
              x.1).isSome = true := by
          intro x hx
          simpa [conTotalCarrito] using hp x (hpr.symm ▸ hx)
        have := darSalidaLista_err_none (a :: rest)
          (conTotalCarrito db idCarrito (a :: rest)) hpres
        rw [hds] at this
        simpa using this
      subst herr
      simp only [hds]
      exact ⟨_, _, _, _, rfl⟩

theorem agregarAlCarrito_frame (db : ConexionBaseDatos)
    (idCliente idProducto cantidad : Nat) :
    (agregarAlCarrito db idCliente idProducto cantidad).1.productos = db.productos ∧
    (agregarAlCarrito db idCliente idProducto cantidad).1.facturas = db.facturas ∧
    (agregarAlCarrito db idCliente idProducto cantidad).1.seq_factura
      = db.seq_factura := by
  simp only [agregarAlCarrito]
  cases h : buscarClave db.productos idProducto with
  | none => simp
  | some prod => by_cases hs : prod.stock < (cantidad : Int) <;> simp [hs]

theorem ingresarProducto_frame (db : ConexionBaseDatos) (row : ProductRow) :
    (ingresarProducto db row).1.clientes = db.clientes ∧
    (ingresarProducto db row).1.carritos = db.carritos ∧
    (ingresarProducto db row).1.facturas = db.facturas ∧
    (ingresarProducto db row).1.seq_factura = db.seq_factura := by
  simp [ingresarProducto, guardar]

/-- C2: checkout (OrdenServiceImpl.verificar) on a cart id that is absent
from the store or whose line-item list is empty fails with the
InvalidState error (ValueError "Carrito vacío o inexistente") and leaves
everything unchanged: same store (so no invoice, no counter increment, no
stock change), same accounting totals, and no event published. -/
theorem claim_C2_carrito_vacio (db : ConexionBaseDatos) (conta : Contabilidad)
    (idCliente idCarrito : Nat)
    (h : ∀ c, buscarClave db.carritos idCarrito = some c → c.productos = []) :
    verificar db conta idCliente idCarrito =
      (db, conta, [], .error (.valueError "Carrito vacío o inexistente")) := by
  rw [verificar_eq]
  cases hc : buscarClave db.carritos idCarrito with
  | none => rfl
  | some c => simp [h c hc]

/-- Witness for C2 at a concrete store with no carts. -/
theorem claim_C2_witness :
    verificar ⟨[], [], [], [], 1⟩ ⟨0, 0⟩ 1 1 =
      (⟨[], [], [], [], 1⟩, ⟨0, 0⟩, [],
        .error (.valueError "Carrito vacío o inexistente")) :=
  claim_C2_carrito_vacio ⟨[], [], [], [], 1⟩ ⟨0, 0⟩ 1 1
    (by intro c hc; simp [buscarClave] at hc)

/-- C4: dispatching cant units of an existing product publishes exactly
cant venta_realizada ("sale") events for that product, one per unit, and
afterwards exactly one additional "Producto agotado" product-updated event
when the resulting stock is 0, and no such event when the resulting stock
stays positive; the operation itself succeeds. -/
theorem claim_C4_eventos_salida (db : ConexionBaseDatos) (idP cant : Nat)
    (row : ProductRow) (h : buscarClave db.productos idP = some row) :
    (darSalidaProducto db idP cant).2.2 = none ∧
    (row.stock - (cant : Int) = 0 →
      (darSalidaProducto db idP cant).2.1 =
        eventosVenta idP cant ++ [eventoAgotado idP]) ∧
    (0 < row.stock - (cant : Int) →
      (darSalidaProducto db idP cant).2.1 = eventosVenta idP cant) := by
  simp only [darSalidaProducto_eq, h]
  refine ⟨by trivial, ?_, ?_⟩
  · intro h0
    have hcond : row.stock + -(cant : Int) ≤ 0 := by omega
    simp [hcond]
  · intro h0
    have hcond : ¬row.stock + -(cant : Int) ≤ 0 := by omega
    simp [hcond]

/-- Witness for C4: dispatching all 3 units of stock. -/
theorem claim_C4_witness :
    (darSalidaProducto dbC4 5 3).2.2 = none ∧
    ((⟨5, "p", "d", 10, 3⟩ : ProductRow).stock - ((3 : Nat) : Int) = 0 →
      (darSalidaProducto dbC4 5 3).2.1 = eventosVenta 5 3 ++ [eventoAgotado 5]) ∧
    (0 < (⟨5, "p", "d", 10, 3⟩ : ProductRow).stock - ((3 : Nat) : Int) →
      (darSalidaProducto dbC4 5 3).2.1 = eventosVenta 5 3) :=
  claim_C4_eventos_salida dbC4 5 3 ⟨5, "p", "d", 10, 3⟩ (by decide)

/-- C8: for a product present in the store, adjusting its stock by -n and
then by +n (ProductoRepositorioImpl.actualizarInventario) succeeds both
times and restores the product table exactly: the stock is back at its
original value and every other field of every product is unchanged. -/
theorem claim_C8_ajuste_ida_vuelta (db : ConexionBaseDatos) (idP n : Nat)
    (h : (buscarClave db.productos idP).isSome = true) :
    (actualizarInventario db idP (-(n : Int))).2 = none ∧
    (actualizarInventario (actualizarInventario db idP (-(n : Int))).1 idP
      (n : Int)).2 = none ∧
    (actualizarInventario (actualizarInventario db idP (-(n : Int))).1 idP
      (n : Int)).1 = db := by
  rcases hrow : buscarClave db.productos idP with - | row
  · rw [hrow] at h; simp at h
  · simp only [actualizarInventario, hrow]
    have h2 : buscarClave (actualizarClave db.productos idP
          (fun r => { r with stock := r.stock + -(n : Int) })) idP
        = some { row with stock := row.stock + -(n : Int) } := by
      rw [buscarClave_actualizarClave]; simp [hrow]
    simp only [h2]
    refine ⟨by trivial, by trivial, ?_⟩
    have hA : actualizarClave (actualizarClave db.productos idP
          (fun r => { r with stock := r.stock + -(n : Int) })) idP
          (fun r => { r with stock := r.stock + (n : Int) }) = db.productos := by
      rw [actualizarClave_actualizarClave]
      apply actualizarClave_congr_id
      intro r
      cases r
      simp
    simp [hA]

/-- Witness for C8 at a concrete store, with n = 3. -/
theorem claim_C8_witness :
    (actualizarInventario dbC8 9 (-((3 : Nat) : Int))).2 = none ∧
    (actualizarInventario (actualizarInventario dbC8 9 (-((3 : Nat) : Int))).1 9
      ((3 : Nat) : Int)).2 = none ∧
    (actualizarInventario (actualizarInventario dbC8 9 (-((3 : Nat) : Int))).1 9
      ((3 : Nat) : Int)).1 = dbC8 :=
  claim_C8_ajuste_ida_vuelta dbC8 9 3 (by decide)

/-- C10: a checkout whose client id has no record in the store's client
map but whose cart id names a non-empty cart of existing products still
succeeds; the invoice carries the fabricated placeholder client snapshot
(name "Cliente id", address "-", phone "-") and the client map is left
unchanged. -/
theorem claim_C10_cliente_inexistente (db : ConexionBaseDatos)
    (conta : Contabilidad) (idCliente idCarrito : Nat) (c : Carrito)
    (hc : buscarClave db.carritos idCarrito = some c)
    (hne : c.productos ≠ [])
    (hp : ∀ p ∈ c.productos, (buscarClave db.productos p.1).isSome = true)
    (habs : buscarClave db.clientes idCliente = none) :
    ∃ db' conta' evs f,
      verificar db conta idCliente idCarrito = (db', conta', evs, .ok f) ∧
      f.cliente = ⟨idCliente, "Cliente " ++ toString idCliente, "-", "-"⟩ ∧
      db'.clientes = db.clientes := by
  obtain ⟨db', conta', evs, f, hok⟩ :=
    verificar_ok_of db conta idCliente idCarrito c hc hne hp
  obtain ⟨c2, -, -, -, -, -, h6, -, h8, -, -, -, -⟩ :=
    verificar_ok_spec db conta idCliente idCarrito db' conta' evs f hok
  refine ⟨db', conta', evs, f, hok, ?_, h8⟩
  rw [h6]
  simp [clienteSnapshot, habs]

/-- Witness for C10 at a concrete store: client 9 has no record. -/
theorem claim_C10_witness :
    ∃ db' conta' evs f,
      verificar dbC10 ⟨0, 0⟩ 9 2 = (db', conta', evs, .ok f) ∧
      f.cliente = ⟨9, "Cliente " ++ toString 9, "-", "-"⟩ ∧
      db'.clientes = dbC10.clientes :=
  claim_C10_cliente_inexistente dbC10 ⟨0, 0⟩ 9 2 ⟨2, [(7, 1)], 0⟩
    (by decide) (by decide) (by decide) (by decide)

/-- C5: on a successful checkout the invoice total is the sum over the
cart's line items of current unit price times quantity (the cart's
calcularTotal), the accounting service's running income grows by exactly
that total, and afterwards the cart's line items are empty and its cached
total is zero. -/
theorem claim_C5_total_factura (db : ConexionBaseDatos) (conta : Contabilidad)
    (idCliente idCarrito : Nat) (db' : ConexionBaseDatos) (conta' : Contabilidad)
    (evs : List Evento) (f : Factura) (c : Carrito)
    (hc : buscarClave db.carritos idCarrito = some c)
    (hok : verificar db conta idCliente idCarrito = (db', conta', evs, .ok f)) :
    f.total = calcularTotal db.productos c.productos ∧
    conta'.ingresos = conta.ingresos + f.total ∧
    ∃ c', buscarClave db'.carritos idCarrito = some c' ∧
      c'.productos = [] ∧ c'.total = 0 := by
  obtain ⟨c2, h1, -, -, -, h5, -, -, -, -, h10, h11, -⟩ :=
    verificar_ok_spec db conta idCliente idCarrito db' conta' evs f hok
  rw [hc] at h1
  obtain rfl := Option.some.inj h1
  refine ⟨h5, ?_, ⟨_, h11, rfl, rfl⟩⟩
  rw [h10]

/-- Witness for C5: the invoice total is 335000 on the concrete store. -/
theorem claim_C5_witness :
    (facC5.total = calcularTotal dbC5.productos [(101, 2), (102, 1)] ∧
     resC5.2.1.ingresos = (0 : Int) + facC5.total ∧
     ∃ c', buscarClave resC5.1.carritos 1 = some c' ∧
       c'.productos = [] ∧ c'.total = 0) ∧
    facC5.total = 335000 :=
  ⟨claim_C5_total_factura dbC5 ⟨0, 0⟩ 1 1 resC5.1 resC5.2.1 resC5.2.2.1 facC5
     ⟨1, [(101, 2), (102, 1)], 0⟩ (by decide) rfl,
   by decide⟩

/-- C9: the invoice stored by a successful checkout is a snapshot: it is
stored under its id, its line items and total are those the cart had at
invoice creation, while the cart itself ends the checkout emptied (step 8),
and any later facade add-to-cart mutation of any cart leaves the stored
invoice unchanged. -/
theorem claim_C9_factura_inmutable (db : ConexionBaseDatos)
    (conta : Contabilidad) (idCliente idCarrito : Nat) (db' : ConexionBaseDatos)
    (conta' : Contabilidad) (evs : List Evento) (f : Factura) (c : Carrito)
    (hc : buscarClave db.carritos idCarrito = some c)
    (hok : verificar db conta idCliente idCarrito = (db', conta', evs, .ok f)) :
    buscarClave db'.facturas f.idFactura = some f ∧
    f.productos = c.productos ∧
    f.total = calcularTotal db.productos c.productos ∧
    (∀ c', buscarClave db'.carritos idCarrito = some c' → c'.productos = []) ∧
    (∀ idC idP cant,
      buscarClave (agregarAlCarrito db' idC idP cant).1.facturas f.idFactura
        = some f) := by
  obtain ⟨c2, h1, -, h3, h4, h5, -, -, -, h9, -, h11, -⟩ :=
    verificar_ok_spec db conta idCliente idCarrito db' conta' evs f hok
  rw [hc] at h1
  obtain rfl := Option.some.inj h1
  have hstore : buscarClave db'.facturas f.idFactura = some f := by
    rw [h9, h3, buscarClave_ponerClave]
    simp
  refine ⟨hstore, h4, h5, ?_, ?_⟩
  · intro c' hc'
    rw [h11] at hc'
    obtain rfl := Option.some.inj hc'
    rfl
  · intro idC idP cant
    rw [(agregarAlCarrito_frame db' idC idP cant).2.1]
    exact hstore

/-- Witness for C9 on the concrete store of C5, mutating cart 1 again
after checkout. -/
theorem claim_C9_witness :
    buscarClave resC5.1.facturas facC5.idFactura = some facC5 ∧
    facC5.productos = [(101, 2), (102, 1)] ∧
    facC5.total = calcularTotal dbC5.productos [(101, 2), (102, 1)] ∧
    (∀ c', buscarClave resC5.1.carritos 1 = some c' → c'.productos = []) ∧
    buscarClave (agregarAlCarrito resC5.1 1 101 1).1.facturas facC5.idFactura
      = some facC5 := by
  have H := claim_C9_factura_inmutable dbC5 ⟨0, 0⟩ 1 1 resC5.1 resC5.2.1
    resC5.2.2.1 facC5 ⟨1, [(101, 2), (102, 1)], 0⟩ (by decide) rfl
  exact ⟨H.1, H.2.1, H.2.2.1, H.2.2.2.1, H.2.2.2.2 1 101 1⟩

/-- C1 counterexample: after two facade add-to-cart calls that each pass
the stock validation, checkout succeeds and leaves product 103 with stock
-2: a successful checkout can drive a stock quantity negative. -/
theorem claim_C1_counterexample :
    esOk (verificar dbC1c ⟨0, 0⟩ 1 1).2.2.2 = true ∧
    (buscarClave (verificar dbC1c ⟨0, 0⟩ 1 1).1.productos 103).map ProductRow.stock
      = some (-2) := by
  decide

/-- C1 amended: a successful checkout keeps every stock quantity
nonnegative provided that, for every product, the aggregate quantity over
the cart's line items does not exceed that product's current stock. -/
theorem claim_C1_amended (db : ConexionBaseDatos) (conta : Contabilidad)
    (idCliente idCarrito : Nat) (db' : ConexionBaseDatos)
    (conta' : Contabilidad) (evs : List Evento) (f : Factura)
    (hok : verificar db conta idCliente idCarrito = (db', conta', evs, .ok f))
    (hcap : ∀ c, buscarClave db.carritos idCarrito = some c →
      ∀ p r, buscarClave db.productos p = some r →
        (cantidadTotal c.productos p : Int) ≤ r.stock) :
    ∀ p r, buscarClave db'.productos p = some r → 0 ≤ r.stock := by
  obtain ⟨c, h1, -, -, -, -, -, -, -, -, -, -, h12⟩ :=
    verificar_ok_spec db conta idCliente idCarrito db' conta' evs f hok
  intro p r hr
  have hq := h12 p
  rw [hr] at hq
  cases hrow : buscarClave db.productos p with
  | none => rw [hrow] at hq; simp at hq
  | some r0 =>
      rw [hrow] at hq
      simp [restarStock] at hq
      have hcap' := hcap c h1 p r0 hrow
      subst hq
      simp only
      omega

/-- Witness for the amended C1: stock ends at 1 and is nonnegative. -/
theorem claim_C1_amended_witness :
    buscarClave resC1w.1.productos 103
      = some ⟨103, "Zapatilla Urbana", "Street", 130000, 1⟩ ∧
    (0 : Int) ≤ (⟨103, "Zapatilla Urbana", "Street", 130000, 1⟩ : ProductRow).stock := by
  refine ⟨by decide, ?_⟩
  refine claim_C1_amended dbC1w ⟨0, 0⟩ 1 1 resC1w.1 resC1w.2.1 resC1w.2.2.1
    facC1w rfl ?_ 103 _ (by decide)
  intro c hc p r hr
  have hcart : buscarClave dbC1w.carritos 1 = some (⟨1, [(103, 2)], 0⟩ : Carrito) := by
    decide
  rw [hcart] at hc
  obtain rfl := Option.some.inj hc
  by_cases hp : p = 103
  · subst hp
    have hprod : buscarClave dbC1w.productos 103
        = some (⟨103, "Zapatilla Urbana", "Street", 130000, 3⟩ : ProductRow) := by
      decide
    rw [hprod] at hr
    obtain rfl := Option.some.inj hr
    decide
  · have hnone : buscarClave dbC1w.productos p = none := by
      have h103 : ¬(103 = p) := fun hh => hp hh.symm
      simp [dbC1w, buscarClave, h103]
    rw [hnone] at hr
    exact absurd hr (by simp)

/-- C6 counterexample: the facade add-to-cart with an absent product id
raises nothing to its caller — the error channel is none and the failure
is only logged — so the failure does not propagate as the claim states. -/
theorem claim_C6_counterexample :
    (agregarAlCarrito dbC6 1 999 1).2.2 = none ∧
    (agregarAlCarrito dbC6 1 999 1).2.1 = [LogEntry.error "Producto no encontrado"] ∧
    buscarClave (agregarAlCarrito dbC6 1 999 1).1.carritos 1 = some ⟨1, [], 0⟩ := by
  decide

/-- C6 amended: on an absent product id or insufficient stock the facade
logs an error and swallows it — the call returns normally with no raised
error — and no line item is appended: the client's cart keeps exactly its
previous line items (a fresh empty cart may be created by setdefault). -/
theorem claim_C6_amended (db : ConexionBaseDatos)
    (idCliente idProducto cantidad : Nat)
    (h : buscarClave db.productos idProducto = none ∨
      ∃ row, buscarClave db.productos idProducto = some row ∧
        row.stock < (cantidad : Int)) :
    (agregarAlCarrito db idCliente idProducto cantidad).2.2 = none ∧
    (∃ m, LogEntry.error m ∈ (agregarAlCarrito db idCliente idProducto cantidad).2.1) ∧
    (∀ c', buscarClave (agregarAlCarrito db idCliente idProducto cantidad).1.carritos
        idCliente = some c' →
      c'.productos = ((buscarClave db.carritos idCliente).map Carrito.productos).getD []) := by
  have hcart : ∀ d : Carrito,
      buscarClave (claveDefecto db.carritos idCliente d) idCliente
        = some ((buscarClave db.carritos idCliente).getD d) := by
    intro d; rw [buscarClave_claveDefecto]; simp
  rcases h with h | ⟨row, hrow, hs⟩
  · simp only [agregarAlCarrito, h]
    refine ⟨by trivial, ⟨"Producto no encontrado", by simp⟩, ?_⟩
    intro c' hc'
    rw [hcart] at hc'
    obtain rfl := Option.some.inj hc'
    cases hcc : buscarClave db.carritos idCliente <;> simp [hcc]
  · simp only [agregarAlCarrito, hrow]
    rw [if_pos hs]
    refine ⟨by trivial, ⟨"Stock insuficiente", by simp⟩, ?_⟩
    intro c' hc'
    rw [hcart] at hc'
    obtain rfl := Option.some.inj hc'
    cases hcc : buscarClave db.carritos idCliente <;> simp [hcc]

/-- Witness for the amended C6 on a store whose product 103 has stock 2
while 5 units are requested. -/
theorem claim_C6_amended_witness :
    (agregarAlCarrito dbC1a 4 103 5).2.2 = none ∧
    (∃ m, LogEntry.error m ∈ (agregarAlCarrito dbC1a 4 103 5).2.1) ∧
    (∀ c', buscarClave (agregarAlCarrito dbC1a 4 103 5).1.carritos 4 = some c' →
      c'.productos = ((buscarClave dbC1a.carritos 4).map Carrito.productos).getD []) :=
  claim_C6_amended dbC1a 4 103 5
    (Or.inr ⟨⟨103, "Zapatilla Urbana", "Street", 130000, 2⟩, by decide, by decide⟩)

theorem suscribir_buscar_self {π σ : Type} (bus : BusEventos π σ) (n : String)
    (h : π → σ → σ) :
    buscarClave (suscribir bus n h).suscriptores n
      = some (((buscarClave bus.suscriptores n).getD []) ++ [h]) := by
  unfold suscribir
  cases hb : buscarClave bus.suscriptores n with
  | some hs => rw [buscarClave_actualizarClave]; simp [hb]
  | none => rw [buscarClave_append]; simp [hb, buscarClave]

theorem suscribir_buscar_otro {π σ : Type} (bus : BusEventos π σ)
    (n n' : String) (h : π → σ → σ) (hne : n' ≠ n) :
    buscarClave (suscribir bus n h).suscriptores n'
      = buscarClave bus.suscriptores n' := by
  unfold suscribir
  cases hb : buscarClave bus.suscriptores n with
  | some hs => rw [buscarClave_actualizarClave]; simp [hne]
  | none =>
      rw [buscarClave_append]
      have hn : ¬n = n' := fun hh => hne hh.symm
      cases hj : buscarClave bus.suscriptores n' <;> simp [buscarClave, hn]

theorem foldl_suscribir_getD {π : Type} (etiquetas : List Nat) (n : String)
    (bus : BusEventos π (List (Nat × π))) :
    ((buscarClave (etiquetas.foldl
        (fun b t => suscribir b n (registroHandler t)) bus).suscriptores n).getD [])
      = ((buscarClave bus.suscriptores n).getD [])
          ++ etiquetas.map registroHandler := by
  induction etiquetas generalizing bus with
  | nil => simp
  | cons t ts ih =>
      simp only [List.foldl_cons, List.map_cons]
      rw [ih (suscribir bus n (registroHandler t))]
      rw [suscribir_buscar_self]
      simp

theorem foldl_registroHandler {π : Type} (etiquetas : List Nat) (datos : π)
    (log : List (Nat × π)) :
    (etiquetas.map registroHandler).foldl (fun st h => h datos st) log
      = log ++ etiquetas.map (fun t => (t, datos)) := by
  induction etiquetas generalizing log with
  | nil => simp
  | cons t ts ih =>
      simp only [List.map_cons, List.foldl_cons]
      rw [ih]
      simp [registroHandler]

/-- C7: the event bus contract.  Subscribing appends the handler at the
end of that event's subscriber list and touches no other event's list;
publishing with no subscribers returns the state unchanged; and publishing
invokes every registered handler exactly once, in registration order,
passing the payload — witnessed by instrumentation handlers whose
invocation log after a publish is exactly the registered tags (duplicates
included, so registering a handler twice invokes it twice) paired with the
payload, in order. -/
theorem claim_C7_bus (π σ : Type) (bus busSin : BusEventos π σ)
    (nombre otro : String) (handler : π → σ → σ) (datos : π) (s : σ)
    (etiquetas : List Nat)
    (hne : otro ≠ nombre)
    (hsin : buscarClave busSin.suscriptores nombre = none) :
    buscarClave (suscribir bus nombre handler).suscriptores nombre
      = some (((buscarClave bus.suscriptores nombre).getD []) ++ [handler]) ∧
    buscarClave (suscribir bus nombre handler).suscriptores otro
      = buscarClave bus.suscriptores otro ∧
    publicar busSin nombre datos s = s ∧
    publicar (etiquetas.foldl (fun b t => suscribir b nombre (registroHandler t))
        (⟨[]⟩ : BusEventos π (List (Nat × π)))) nombre datos []
      = etiquetas.map (fun t => (t, datos)) := by
  refine ⟨suscribir_buscar_self bus nombre handler,
    suscribir_buscar_otro bus nombre otro handler hne, ?_, ?_⟩
  · simp [publicar, hsin]
  · rw [publicar, foldl_suscribir_getD]
    simp only [buscarClave, Option.getD_none, List.nil_append]
    exact foldl_registroHandler etiquetas datos []

/-- Witness for C7: two subscriptions of the same instrumentation handler
(tag 3) yield two invocations on one publish. -/
theorem claim_C7_witness :
    buscarClave (suscribir (⟨[]⟩ : BusEventos Nat Nat) "a" (fun _ s => s)).suscriptores "a"
      = some (((buscarClave (⟨[]⟩ : BusEventos Nat Nat).suscriptores "a").getD [])
          ++ [fun _ s => s]) ∧
    buscarClave (suscribir (⟨[]⟩ : BusEventos Nat Nat) "a" (fun _ s => s)).suscriptores "b"
      = buscarClave (⟨[]⟩ : BusEventos Nat Nat).suscriptores "b" ∧
    publicar (⟨[]⟩ : BusEventos Nat Nat) "a" 0 5 = 5 ∧
    publicar (([3, 3] : List Nat).foldl
        (fun b t => suscribir b "a" (registroHandler t))
        (⟨[]⟩ : BusEventos Nat (List (Nat × Nat)))) "a" 0 []
      = ([3, 3] : List Nat).map (fun t => (t, 0)) :=
  claim_C7_bus Nat Nat ⟨[]⟩ ⟨[]⟩ "a" "b" (fun _ s => s) 0 5 [3, 3]
    (by decide) rfl

theorem runOps_facturas_aux (ops : List Op) (db : ConexionBaseDatos)
    (conta : Contabilidad)
    (hinv : ∀ k f, buscarClave db.facturas k = some f → k < db.seq_factura) :
    (runOps ops db conta).2.2
      = List.range' db.seq_factura (runOps ops db conta).2.2.length ∧
    (∀ k f, buscarClave db.facturas k = some f →
      buscarClave (runOps ops db conta).1.facturas k = some f) ∧
    (∀ i ∈ (runOps ops db conta).2.2, ∃ f,
      buscarClave (runOps ops db conta).1.facturas i = some f ∧
        f.idFactura = i) := by
  induction ops generalizing db conta with
  | nil => exact ⟨rfl, fun k f hk => hk, by simp [runOps]⟩
  | cons op rest ih =>
      cases op with
      | ingresar row =>
          obtain ⟨-, -, hfa, hsq⟩ := ingresarProducto_frame db row
          have hinv1 : ∀ k f,
              buscarClave (ingresarProducto db row).1.facturas k = some f →
              k < (ingresarProducto db row).1.seq_factura := by
            intro k f hk
            rw [hfa] at hk
            rw [hsq]
            exact hinv k f hk
          have H := ih (ingresarProducto db row).1 conta hinv1
          rw [hsq] at H
          simp only [runOps]
          refine ⟨H.1, ?_, H.2.2⟩
          intro k f hk
          exact H.2.1 k f (by rw [hfa]; exact hk)
      | agregar idCl idP cant =>
          obtain ⟨-, hfa, hsq⟩ := agregarAlCarrito_frame db idCl idP cant
          have hinv1 : ∀ k f,
              buscarClave (agregarAlCarrito db idCl idP cant).1.facturas k
                = some f →
              k < (agregarAlCarrito db idCl idP cant).1.seq_factura := by
            intro k f hk
            rw [hfa] at hk
            rw [hsq]
            exact hinv k f hk
          have H := ih (agregarAlCarrito db idCl idP cant).1 conta hinv1
          rw [hsq] at H
          simp only [runOps]
          refine ⟨H.1, ?_, H.2.2⟩
          intro k f hk
          exact H.2.1 k f (by rw [hfa]; exact hk)
      | comprar idCl idCa =>
          rcases hvr : verificar db conta idCl idCa with ⟨db', conta', evsx, res⟩
          cases res with
          | error e =>
              obtain ⟨hfa, hsq, hco⟩ :=
                verificar_err_frame db conta idCl idCa db' conta' evsx e hvr
              have hinv1 : ∀ k f, buscarClave db'.facturas k = some f →
                  k < db'.seq_factura := by
                intro k f hk
                rw [hfa] at hk
                rw [hsq]
                exact hinv k f hk
              have H := ih db' conta' hinv1
              rw [hsq] at H
              simp only [runOps, hvr]
              refine ⟨H.1, ?_, H.2.2⟩
              intro k f hk
              exact H.2.1 k f (by rw [hfa]; exact hk)
          | ok f =>
              obtain ⟨c, -, -, h3, -, -, -, h7, -, h9, -, -, -⟩ :=
                verificar_ok_spec db conta idCl idCa db' conta' evsx f hvr
              have hself : buscarClave db'.facturas f.idFactura = some f := by
                rw [h9, h3, buscarClave_ponerClave]
                simp
              have hkeep : ∀ k g, buscarClave db.facturas k = some g →
                  buscarClave db'.facturas k = some g := by
                intro k g hk
                have hlt := hinv k g hk
                rw [h9, buscarClave_ponerClave, if_neg (by omega)]
                exact hk
              have hinv1 : ∀ k g, buscarClave db'.facturas k = some g →
                  k < db'.seq_factura := by
                intro k g hk
                rw [h9, buscarClave_ponerClave] at hk
                rw [h7]
                by_cases hke : k = db.seq_factura
                · omega
                · rw [if_neg hke] at hk
                  have := hinv k g hk
                  omega
              have H := ih db' conta' hinv1
              rw [h7] at H
              simp only [runOps, hvr]
              refine ⟨?_, ?_, ?_⟩
              · rw [List.length_cons, List.range'_succ, h3]
                exact congrArg (List.cons db.seq_factura) H.1
              · intro k g hk
                exact H.2.1 k g (hkeep k g hk)
              · intro i hi
                rcases List.mem_cons.mp hi with hi0 | hirest
                · subst hi0
                  exact ⟨f, H.2.1 f.idFactura f hself, rfl⟩
                · exact H.2.2 i hirest

/-- C3: starting from a fresh process store (invoice counter 1, no stored
invoices), the invoice ids returned by the successful checkouts of any
operation sequence (product ingestions, facade add-to-cart calls,
checkouts) are exactly 1, 2, 3, ... in order, and each such invoice is
stored in the store under its own id. -/
theorem claim_C3_ids_consecutivos (ops : List Op) (db : ConexionBaseDatos)
    (conta : Contabilidad)
    (hseq : db.seq_factura = 1) (hfac : db.facturas = []) :
    (runOps ops db conta).2.2
      = List.range' 1 (runOps ops db conta).2.2.length ∧
    ∀ i ∈ (runOps ops db conta).2.2, ∃ f,
      buscarClave (runOps ops db conta).1.facturas i = some f ∧
        f.idFactura = i := by
  have H := runOps_facturas_aux ops db conta
    (by intro k f hk; rw [hfac] at hk; simp [buscarClave] at hk)
  rw [hseq] at H
  exact ⟨H.1, H.2.2⟩

/-- Witness for C3: on a fresh store the two successful checkouts return
ids [1, 2]. -/
theorem claim_C3_witness :
    (runOps opsC3 ⟨[], [], [], [], 1⟩ ⟨0, 0⟩).2.2
      = List.range' 1 (runOps opsC3 ⟨[], [], [], [], 1⟩ ⟨0, 0⟩).2.2.length ∧
    (runOps opsC3 ⟨[], [], [], [], 1⟩ ⟨0, 0⟩).2.2 = [1, 2] :=
  ⟨(claim_C3_ids_consecutivos opsC3 ⟨[], [], [], [], 1⟩ ⟨0, 0⟩ rfl rfl).1,
   by decide⟩
